import Mathlib

/-
Verification development for the semantic annotation pipeline of this
repository.  The definitions below are shallow embeddings of the source
files:

  * namespace Processor    — packages/web-extension/src/pages/semantic/processor.ts
  * namespace Enhanced     — the EnhancedReplayer class and its types module
  * namespace OmniPlugin   — createScreenshotAnalysisPlugin in
                             SemanticInteractivePlayer.tsx (second component)

JavaScript numbers are modelled as rationals (ℚ) except where NaN and the
infinities matter for control flow (the OmniPlugin coordinate validation),
where an explicit JSNum type is used.  Asynchronous code is modelled as
explicit state passing: the DOMReconstructor instance fields become a
state record, and nondeterministic inputs (the network, Date.now, the
crypto UUID generator) become explicit environment arguments.  Observable
effects that the claims talk about (POST /upload calls, subscriber
notifications) are recorded in the state as a trace.
-/

set_option autoImplicit false

/-- String.prototype.startsWith of JavaScript, computed on the character
lists so that concrete instances reduce in the kernel. -/
def strStartsWith (l p : String) : Bool :=
  p.toList.isPrefixOf l.toList

/-- String.prototype.trim of JavaScript: drop whitespace from both ends. -/
def trimString (s : String) : String :=
  String.mk
    (((s.toList.dropWhile Char.isWhitespace).reverse.dropWhile
        Char.isWhitespace).reverse)

namespace Processor

/-- Pixel box, interface BoundingBox of processor.ts. -/
structure BoundingBox where
  x : ℚ
  y : ℚ
  width : ℚ
  height : ℚ
deriving DecidableEq, Repr

/-- interface SemanticLabel of processor.ts. -/
structure SemanticLabel where
  id : String
  timestamp : ℚ
  label : String
  confidence : ℚ
  bbox : BoundingBox
deriving DecidableEq, Repr

/-- interface AIAnalysisResult of processor.ts: one detection from the
remote service, with a two corner bbox array. -/
structure AIAnalysisResult where
  text : String
  bbox : List ℚ
  score : ℚ
deriving DecidableEq, Repr

/-- function convertBBoxToBox of processor.ts: takes the server bbox
[x1, y1, x2, y2] to the record form.  The source indexes bbox[0]..bbox[3]
directly; the wire contract supplies four entries, and out of range access
is given the default 0 here.  Note that no image dimensions are involved:
the function has no size parameter at all. -/
def convertBBoxToBox (bbox : List ℚ) : BoundingBox :=
  { x := bbox.getD 0 0
    y := bbox.getD 1 0
    width := bbox.getD 2 0 - bbox.getD 0 0
    height := bbox.getD 3 0 - bbox.getD 1 0 }

/-- function convertToSemanticLabel of processor.ts.  The source draws the
id from crypto.randomUUID(); that nondeterministic value is the explicit
uuid argument here. -/
def convertToSemanticLabel (uuid : String) (result : AIAnalysisResult)
    (timestamp : ℚ) : SemanticLabel :=
  { id := uuid
    timestamp := timestamp
    label := result.text
    confidence := result.score
    bbox := convertBBoxToBox result.bbox }

/-- One response of the GET results endpoint as seen by pollResults:
either an HTTP failure with a status (response.ok false), a parsed 200
JSON body with a results list and optional error string, or a thrown
error (network failure, missing body, JSON parse failure). -/
inductive PollResponse where
  | failure (status : ℕ)
  | success (results : List AIAnalysisResult) (error : Option String)
  | netError (msg : String)
deriving DecidableEq, Repr

/-- The error pollResults can reject with: the post-loop throw (Max
polling attempts reached without getting results), or the error of the
final attempt rethrown by the catch. -/
inductive PollError where
  | maxAttemptsReached
  | http (status : ℕ)
  | server (msg : String)
  | net (msg : String)
deriving DecidableEq, Repr

/-- What one iteration of the polling loop decides to do. -/
inductive PollAction where
  | continueAfter (delay : ℕ)
  | done (results : List AIAnalysisResult)
  | fail (e : PollError)
deriving DecidableEq, Repr

/-- One iteration of the for loop in pollResults (processor.ts lines
329-378), for a given attempt index and the response that the fetch of
this attempt produced.  A 404 sleeps for interval and continues; any
other non-ok status throws, which the catch turns into a retry unless
attempt === maxAttempts - 1; a truthy data.error throws likewise; a body
with a nonempty results list returns; an empty (or absent) results list
sleeps and continues. -/
def pollStep (maxAttempts attempt interval : ℕ) (r : PollResponse) :
    PollAction :=
  match r with
  | .failure status =>
    if status = 404 then .continueAfter interval
    else if attempt = maxAttempts - 1 then .fail (.http status)
    else .continueAfter interval
  | .netError msg =>
    if attempt = maxAttempts - 1 then .fail (.net msg)
    else .continueAfter interval
  | .success results error =>
    if (error.getD "") != "" then
      (if attempt = maxAttempts - 1 then .fail (.server (error.getD ""))
       else .continueAfter interval)
    else if 0 < results.length then .done results
    else .continueAfter interval

/-- The polling loop of pollResults, recursing on the number of remaining
attempts.  responses gives, for each attempt index, the outcome of the
fetch of that attempt.  Returns the overall outcome together with the
number of fetches performed and the list of sleep delays taken. -/
def pollResultsAux (responses : ℕ → PollResponse)
    (maxAttempts interval attempt remaining : ℕ) :
    Except PollError (List AIAnalysisResult) × ℕ × List ℕ :=
  match remaining with
  | 0 => (Except.error PollError.maxAttemptsReached, 0, [])
  | remaining' + 1 =>
    match pollStep maxAttempts attempt interval (responses attempt) with
    | .done results => (Except.ok results, 1, [])
    | .fail e => (Except.error e, 1, [])
    | .continueAfter d =>
      let rest := pollResultsAux responses maxAttempts interval
        (attempt + 1) remaining'
      (rest.1, rest.2.1 + 1, d :: rest.2.2)

/-- method pollResults of DOMReconstructor (processor.ts lines 324-380).
The jobId argument of the source only selects the URL and is absorbed
into the responses environment. -/
def pollResults (responses : ℕ → PollResponse)
    (maxAttempts interval : ℕ) :
    Except PollError (List AIAnalysisResult) × ℕ × List ℕ :=
  pollResultsAux responses maxAttempts interval 0 maxAttempts

/-- The instance fields of class DOMReconstructor, plus two trace fields
(uploadCount, notificationLog) recording the observable effects the
claims speak about.  Subscribers are identified by numbers; the mirror
and the offscreen surface are abstracted to the serialized tree they were
last built from (none after reset); the cache is stateless after
recreation and carries no field. -/
structure ReconstructorState where
  isPolling : Bool
  analysisResults : Option (List AIAnalysisResult)
  semanticLabelSubscribers : List ℕ
  containerAttached : Bool
  mirrorTree : Option ℕ
  surfaceTree : Option ℕ
  uploadCount : ℕ
  notificationLog : List (ℕ × List SemanticLabel × String)
deriving DecidableEq, Repr

/-- The constructor of DOMReconstructor: fresh mirror and cache, hidden
container and iframe attached, no analysis in progress. -/
def initState : ReconstructorState :=
  { isPolling := false
    analysisResults := none
    semanticLabelSubscribers := []
    containerAttached := true
    mirrorTree := none
    surfaceTree := none
    uploadCount := 0
    notificationLog := [] }

/-- method subscribeToSemanticLabels (processor.ts lines 304-313): pushes
the callback onto the subscriber list. -/
def subscribeToSemanticLabels (s : ReconstructorState) (subscriber : ℕ) :
    ReconstructorState :=
  { s with semanticLabelSubscribers := s.semanticLabelSubscribers ++ [subscriber] }

/-- method notifySemanticLabelSubscribers (processor.ts lines 315-322):
invokes every registered callback with the labels and image data.  The
invocations are recorded in the trace. -/
def notifySemanticLabelSubscribers (s : ReconstructorState)
    (labels : List SemanticLabel) (imageData : String) : ReconstructorState :=
  { s with notificationLog := s.notificationLog ++
      s.semanticLabelSubscribers.map (fun cb => (cb, labels, imageData)) }

/-- method destroy (processor.ts lines 456-462): removes the hidden
container, resets the mirror and recreates the cache.  It does not touch
isPolling, analysisResults, or the subscriber list. -/
def destroy (s : ReconstructorState) : ReconstructorState :=
  { s with containerAttached := false, mirrorTree := none }

/-- The response of POST /upload as analyzeImage sees it: a 2xx JSON body
that may or may not contain a jobId, a non-ok status, or a thrown network
error. -/
inductive UploadResponse where
  | ok (jobId : Option String)
  | httpError (status : ℕ)
  | netError (msg : String)
deriving DecidableEq, Repr

/-- Everything nondeterministic that one analyzeImage run consumes:
Date.now() at result conversion time, the crypto.randomUUID() stream, the
upload response and the per-attempt poll responses. -/
structure AnalyzeEnv where
  now : ℚ
  uuids : ℕ → String
  uploadResponse : UploadResponse
  pollResponses : ℕ → PollResponse

/-- Outcome of the submission phase of analyzeImage. -/
inductive SubmitResult where
  | skipped
  | failed (msg : String)
  | submitted (jobId : String)
deriving DecidableEq, Repr

/-- The part of analyzeImage (processor.ts lines 382-421) up to obtaining
the job id: the isPolling guard, the immediate ([], dataUrl) notification,
the POST /upload (counted in the trace as soon as the request is made),
and the jobId extraction.  The source never assigns isPolling, so this
function leaves it unchanged. -/
def analyzeImageSubmit (s : ReconstructorState) (dataUrl : String)
    (env : AnalyzeEnv) : ReconstructorState × SubmitResult :=
  if s.isPolling then (s, .skipped)
  else
    let s1 := notifySemanticLabelSubscribers s [] dataUrl
    let s2 := { s1 with uploadCount := s1.uploadCount + 1 }
    match env.uploadResponse with
    | .ok (some jobId) => (s2, .submitted jobId)
    | .ok none => (s2, .failed "No job ID received from server")
    | .httpError _ => (s2, .failed "Failed to submit job")
    | .netError msg => (s2, .failed msg)

/-- The rest of analyzeImage (processor.ts lines 425-445): awaiting
pollResults with the fixed arguments (jobId, 120, 10000), storing the
results, converting them with the Date.now() timestamp, notifying the
subscribers, returning the stored results; or, in the catch, storing null
and resolving with the empty array. -/
def analyzeImageFinish (s : ReconstructorState) (dataUrl : String)
    (env : AnalyzeEnv) : ReconstructorState × List AIAnalysisResult :=
  match (pollResults env.pollResponses 120 10000).1 with
  | .ok results =>
    let s1 := { s with analysisResults := some results }
    let timestamp := env.now
    let semanticLabels := results.enum.map
      (fun p => convertToSemanticLabel (env.uuids p.1) p.2 timestamp)
    let s2 := notifySemanticLabelSubscribers s1 semanticLabels dataUrl
    (s2, results)
  | .error _ => ({ s with analysisResults := none }, [])

/-- method analyzeImage of DOMReconstructor (processor.ts lines 382-446):
submit, then poll and apply; any thrown error lands in the catch, which
stores null and resolves with []. -/
def analyzeImage (s : ReconstructorState) (dataUrl : String)
    (env : AnalyzeEnv) : ReconstructorState × List AIAnalysisResult :=
  match analyzeImageSubmit s dataUrl env with
  | (s1, .skipped) => (s1, [])
  | (s1, .failed _) => ({ s1 with analysisResults := none }, [])
  | (s1, .submitted _) => analyzeImageFinish s1 dataUrl env

/-- True when the upload phase must throw: a missing jobId, a non-ok
status, or a network error. -/
def uploadFails (env : AnalyzeEnv) : Bool :=
  match env.uploadResponse with
  | .ok (some _) => false
  | _ => true

/-- True when pollResults with the analyzeImage arguments rejects. -/
def pollFails (env : AnalyzeEnv) : Bool :=
  match (pollResults env.pollResponses 120 10000).1 with
  | .error _ => true
  | .ok _ => false

/-- enum EventType of rrweb, as far as the pipeline consumes it. -/
inductive EventType where
  | domContentLoaded
  | load
  | fullSnapshot
  | incrementalSnapshot
  | meta
  | custom
  | plugin
deriving DecidableEq, Repr

/-- type eventWithTime of rrweb: the tag, the timestamp and the payload;
the payload is abstracted to the identity of the serialized node tree a
FullSnapshot carries. -/
structure eventWithTime where
  type : EventType
  timestamp : ℚ
  node : ℕ
deriving DecidableEq, Repr

/-- Whether reconstructFromEvents returned the iframe document or null. -/
inductive DocRef where
  | iframeDoc
deriving DecidableEq, Repr

/-- interface DOMReconstructionResult of processor.ts. -/
structure DOMReconstructionResult where
  document : Option DocRef
  imageDataUrl : Option String
  error : Option String
deriving DecidableEq, Repr

/-- The nondeterminism one reconstructFromEvents run consumes: the
html2canvas outcome (some data url, or none when rasterization threw) and
the environment of the analyzeImage call it fires. -/
structure ReconstructEnv where
  captureResult : Option String
  analyzeEnv : AnalyzeEnv

/-- method reconstructFromEvents (processor.ts lines 132-235).  With no
FullSnapshot among the events it returns the missing snapshot error and
leaves the state untouched; otherwise it resets the mirror, rebuilds the
surface from the snapshot tree, rasterizes, and fires analyzeImage with
the data url (the source fires it asynchronously with errors logged;
since execution is single threaded its state effects are sequenced here).
The rebuild and diff steps are abstracted to recording the snapshot tree
in the mirror and surface fields. -/
def reconstructFromEvents (s : ReconstructorState)
    (events : List eventWithTime) (env : ReconstructEnv) :
    ReconstructorState × DOMReconstructionResult :=
  match events.find? (fun e => e.type == EventType.fullSnapshot) with
  | none =>
    (s, { document := none, imageDataUrl := none
          error := some "No full snapshot found in events" })
  | some fullSnapshot =>
    let s1 := { s with mirrorTree := some fullSnapshot.node
                       surfaceTree := some fullSnapshot.node }
    match env.captureResult with
    | none =>
      (s1, { document := some .iframeDoc, imageDataUrl := none
             error := some "Failed to generate image snapshot" })
    | some dataUrl =>
      let s2 := (analyzeImage s1 dataUrl env.analyzeEnv).1
      (s2, { document := some .iframeDoc, imageDataUrl := some dataUrl
             error := none })

/-- The single detection of the §8 example scenario: text Login, two
corner box [0.1, 0.1, 0.3, 0.2], score 0.9. -/
def loginResult : AIAnalysisResult :=
  { text := "Login", bbox := [1/10, 1/10, 3/10, 2/10], score := 9/10 }

end Processor

namespace Enhanced

/-- interface BoundingBox of the semantic types module. -/
structure BoundingBox where
  x : ℚ
  y : ℚ
  width : ℚ
  height : ℚ
deriving DecidableEq, Repr

/-- interface SemanticLabel of the semantic types module (the variant the
EnhancedReplayer consumes, with elementId and boundingBox fields). -/
structure SemanticLabel where
  elementId : String
  timestamp : ℚ
  boundingBox : BoundingBox
  label : String
  confidence : ℚ
deriving DecidableEq, Repr

/-- The selection inside EnhancedReplayer.attachSemanticLabels: the const
relevantLabels, filtering the stored labels to those whose timestamp is
at most the queried timestamp. -/
def relevantLabels (semanticLabels : List SemanticLabel) (timestamp : ℚ) :
    List SemanticLabel :=
  semanticLabels.filter (fun label => label.timestamp ≤ timestamp)

/-- method attachSemanticLabels of EnhancedReplayer: selects the relevant
labels and attaches an overlay for each one whose element the mirror can
resolve (resolution failure silently skips the label).  Returns the
labels actually attached. -/
def attachSemanticLabels (semanticLabels : List SemanticLabel)
    (mirror : String → Option ℕ) (timestamp : ℚ) : List SemanticLabel :=
  (relevantLabels semanticLabels timestamp).filter
    (fun label => (mirror label.elementId).isSome)

end Enhanced

namespace OmniPlugin

/-- A JavaScript number, split by the cases the coordinate validation in
createScreenshotAnalysisPlugin distinguishes: an ordinary (finite) value,
NaN, and the two infinities.  Number(x) on a numeric payload is the
identity; a non numeric payload coerces to nan. -/
inductive JSNum where
  | num (q : ℚ)
  | nan
  | inf
  | neginf
deriving DecidableEq, Repr

/-- Number.isNaN. -/
def JSNum.isNaN : JSNum → Bool
  | .nan => true
  | _ => false

/-- Whether the value is an ordinary finite number. -/
def JSNum.isFinite : JSNum → Bool
  | .num _ => true
  | _ => false

/-- IEEE multiplication on the modelled values. -/
def JSNum.mul : JSNum → JSNum → JSNum
  | .num a, .num b => .num (a * b)
  | .nan, _ => .nan
  | _, .nan => .nan
  | .inf, .num b => if 0 < b then .inf else if b < 0 then .neginf else .nan
  | .num a, .inf => if 0 < a then .inf else if a < 0 then .neginf else .nan
  | .neginf, .num b => if 0 < b then .neginf else if b < 0 then .inf else .nan
  | .num a, .neginf => if 0 < a then .neginf else if a < 0 then .inf else .nan
  | .inf, .inf => .inf
  | .inf, .neginf => .neginf
  | .neginf, .inf => .neginf
  | .neginf, .neginf => .inf

/-- interface Coordinates of the plugin. -/
structure Coordinates where
  x : JSNum
  y : JSNum
  width : JSNum
  height : JSNum
deriving DecidableEq, Repr

/-- interface ParsedBox of the plugin. -/
structure ParsedBox where
  id : String
  coords : Coordinates
  text : String
deriving DecidableEq, Repr

/-- The value at one key of the coordinate object: either an array of
numbers (after the Number coercion of each component) or anything else
(a falsy value or a non array), which the validation rejects. -/
inductive CoordVal where
  | arr (cs : List JSNum)
  | notArr
deriving DecidableEq, Repr

/-- The replace of the regex anchored at Text Box ID, digits, colon and a
space: strips that heading when it is present, otherwise leaves the line
unchanged (the source regex replaces at most this one anchored match). -/
def stripTextBoxHeading (l : String) : String :=
  let p := "Text Box ID "
  if strStartsWith l p then
    let rest := l.toList.drop p.length
    let ds := rest.takeWhile Char.isDigit
    let after := rest.drop ds.length
    if 0 < ds.length ∧ after.take 2 = [':', ' '] then String.mk (after.drop 2)
    else l
  else l

/-- The text resolution for one box id (plugin lines 439-444): find the
line of the parsed text block that starts with Text Box ID, the id and a
colon, strip the heading, trim; an absent line yields the empty string
(the || fallback of the source). -/
def matchedText (lines : List String) (id : String) : String :=
  match lines.find? (fun line => strStartsWith line ("Text Box ID " ++ id ++ ":")) with
  | some line => trimString (stripTextBoxHeading line)
  | none => ""

/-- The map body over Object.entries of the coordinate object (plugin
lines 409-447): a value that is falsy, not an array, or not of length 4
yields the zero box with empty text; so does an array with a NaN
component after Number coercion; otherwise the four components are scaled
by the canvas pixel dimensions and the text is resolved by id. -/
def entryToParsedBox (lines : List String) (canvasWidth canvasHeight : ℚ)
    (entry : String × CoordVal) : ParsedBox :=
  match entry.2 with
  | .notArr =>
    { id := entry.1
      coords := { x := .num 0, y := .num 0, width := .num 0, height := .num 0 }
      text := "" }
  | .arr cs =>
    if cs.length ≠ 4 then
      { id := entry.1
        coords := { x := .num 0, y := .num 0, width := .num 0, height := .num 0 }
        text := "" }
    else if cs.any JSNum.isNaN then
      { id := entry.1
        coords := { x := .num 0, y := .num 0, width := .num 0, height := .num 0 }
        text := "" }
    else
      { id := entry.1
        coords :=
          { x := (cs.getD 0 .nan).mul (.num canvasWidth)
            y := (cs.getD 1 .nan).mul (.num canvasHeight)
            width := (cs.getD 2 .nan).mul (.num canvasWidth)
            height := (cs.getD 3 .nan).mul (.num canvasHeight) }
        text := matchedText lines entry.1 }

/-- The computation of aiBoundingBoxes (plugin lines 409-448): map every
entry of the coordinate object and filter out the boxes with no text. -/
def computeBoundingBoxes (entries : List (String × CoordVal))
    (lines : List String) (canvasWidth canvasHeight : ℚ) : List ParsedBox :=
  (entries.map (entryToParsedBox lines canvasWidth canvasHeight)).filter
    (fun box => box.text != "")

/-- The validity condition the source code actually enforces on a
coordinate value: an array of exactly four components, none NaN. -/
def codeValidBox : CoordVal → Bool
  | .arr cs => cs.length == 4 && !(cs.any JSNum.isNaN)
  | .notArr => false

end OmniPlugin

namespace Processor

/-- A fixed environment with a successful upload and a permanently
pending results endpoint: the submitted job stays in flight. -/
def envUpload : AnalyzeEnv :=
  { now := 0
    uuids := fun _ => "u"
    uploadResponse := .ok (some "job-1")
    pollResponses := fun _ => .failure 404 }

/-- A reconstruction environment whose capture succeeds, over envUpload. -/
def envReconstructW : ReconstructEnv :=
  { captureResult := some "img", analyzeEnv := envUpload }

/-- An environment whose upload succeeds and whose first poll already
returns the Login detection, with Date.now() equal to 123. -/
def envC6 : AnalyzeEnv :=
  { now := 123
    uuids := fun _ => "uuid-0"
    uploadResponse := .ok (some "job-1")
    pollResponses := fun _ => .success [loginResult] none }

/-- A fully successful reconstruction environment whose analyzeImage call
happens at wall clock time 1700000000000 (milliseconds since the epoch),
while the recorded events carry session timestamps near 0. -/
def envC3 : ReconstructEnv :=
  { captureResult := some "img"
    analyzeEnv :=
      { now := 1700000000000
        uuids := fun _ => "uuid-0"
        uploadResponse := .ok (some "job-1")
        pollResponses := fun _ => .success [loginResult] none } }

/-- The §8 scenario event stream: one FullSnapshot at timestamp 0. -/
def eventsC3 : List eventWithTime :=
  [{ type := .fullSnapshot, timestamp := 0, node := 1 }]

end Processor

namespace Enhanced

/-- A sample label at timestamp 0 for concrete instantiations. -/
def lbl0 : SemanticLabel :=
  { elementId := "e1"
    timestamp := 0
    boundingBox := { x := 0, y := 0, width := 10, height := 10 }
    label := "Login"
    confidence := 9/10 }

end Enhanced

open Processor

/-- Claim C1 (counterexample): on the §8 scenario detection (two corner
box [0.1, 0.1, 0.3, 0.2], score 0.9) the code does not produce the pixel
box {x: 102.4, y: 76.8, width: 204.8, height: 76.8} the claim states for
a 1024×768 image: convertBBoxToBox performs no scaling at all, so the
label carries the box {x: 0.1, y: 0.1, width: 0.2, height: 0.1}, which
differs from the claimed box. -/
theorem convertToSemanticLabel_counterexample :
    convertToSemanticLabel "u" loginResult 0 =
      { id := "u", timestamp := 0, label := "Login", confidence := 9/10
        bbox := { x := 1/10, y := 1/10, width := 1/5, height := 1/10 } } ∧
    (({ x := 1/10, y := 1/10, width := 1/5, height := 1/10 } : BoundingBox) !=
      { x := 512/5, y := 384/5, width := 1024/5, height := 384/5 }) = true := by
  constructor
  · simp only [convertToSemanticLabel, convertBBoxToBox, loginResult,
      SemanticLabel.mk.injEq, BoundingBox.mk.injEq]
    norm_num
  · rw [bne_iff_ne]
    simp only [ne_eq, BoundingBox.mk.injEq, not_and]
    norm_num

/-- Claim C1 (amended): convertToSemanticLabel maps the §8 scenario
detection to a label whose bbox is the two corner box rewritten as
{x, y, width, height} with no scaling by the image dimensions (the
converter receives no image size), whose confidence is the score 0.9,
and whose timestamp is exactly the clock value passed in by analyzeImage
(Date.now() at analysis completion), whatever it is. -/
theorem convertToSemanticLabel_no_scaling (uuid : String) (now : ℚ) :
    convertToSemanticLabel uuid loginResult now =
      { id := uuid, timestamp := now, label := "Login", confidence := 9/10
        bbox := { x := 1/10, y := 1/10, width := 1/5, height := 1/10 } } := by
  simp only [convertToSemanticLabel, convertBBoxToBox, loginResult,
    SemanticLabel.mk.injEq, BoundingBox.mk.injEq]
  norm_num

/-- Helper for claim C4: under permanently not-ready responses the loop
runs through all remaining attempts, fetching once and sleeping once per
attempt, and falls out of the loop into the final throw. -/
theorem pollResultsAux_notReady (responses : ℕ → PollResponse)
    (maxAttempts interval : ℕ)
    (h : ∀ i, responses i = .failure 404 ∨ responses i = .success [] none) :
    ∀ remaining attempt,
      pollResultsAux responses maxAttempts interval attempt remaining =
        (Except.error PollError.maxAttemptsReached, remaining,
          List.replicate remaining interval) := by
  intro remaining
  induction remaining with
  | zero =>
    intro attempt
    simp [pollResultsAux, List.replicate]
  | succ n ih =>
    intro attempt
    rcases h attempt with hr | hr <;>
      simp [pollResultsAux, hr, pollStep, ih (attempt + 1), List.replicate]

/-- Claim C4: for every maxAttempts and every response sequence in which
each poll returns not ready (HTTP 404 or a 200 with empty results),
pollResults performs at most maxAttempts fetches of the results endpoint
and terminates with the max-attempts (timeout) error. -/
theorem pollResults_bounded_attempts (maxAttempts interval : ℕ)
    (responses : ℕ → PollResponse)
    (h : ∀ i, responses i = .failure 404 ∨ responses i = .success [] none) :
    (pollResults responses maxAttempts interval).2.1 ≤ maxAttempts ∧
    (pollResults responses maxAttempts interval).1 =
      Except.error PollError.maxAttemptsReached := by
  rw [pollResults, pollResultsAux_notReady responses maxAttempts interval h maxAttempts 0]
  exact ⟨le_refl maxAttempts, rfl⟩

/-- Witness for claim C4 at maxAttempts 2, interval 5, all responses 404. -/
theorem pollResults_bounded_attempts_witness :
    (pollResults (fun _ => PollResponse.failure 404) 2 5).2.1 ≤ 2 ∧
    (pollResults (fun _ => PollResponse.failure 404) 2 5).1 =
      Except.error PollError.maxAttemptsReached :=
  pollResults_bounded_attempts 2 5 (fun _ => PollResponse.failure 404)
    (fun _ => Or.inl rfl)

/-- Claim C7: a successful response with an empty results list and no
error is handled by the polling loop exactly like a 404 not-ready
response: both continue the loop after the same interval delay, at every
attempt index. -/
theorem pollStep_empty_results_as_not_ready (maxAttempts attempt interval : ℕ) :
    pollStep maxAttempts attempt interval (.success [] none) =
      pollStep maxAttempts attempt interval (.failure 404) ∧
    pollStep maxAttempts attempt interval (.failure 404) =
      PollAction.continueAfter interval := by
  constructor <;> rfl

/-- Claim C5: the selection of EnhancedReplayer.attachSemanticLabels at
time t is exactly the set of stored labels with timestamp at most t, and
it is monotone: a label selected at t is still selected at any later
time tq. -/
theorem relevantLabels_query_monotone (labels : List Enhanced.SemanticLabel)
    (t tq : ℚ) (l : Enhanced.SemanticLabel) (h : t ≤ tq) :
    (l ∈ Enhanced.relevantLabels labels t ↔ l ∈ labels ∧ l.timestamp ≤ t) ∧
    (l ∈ Enhanced.relevantLabels labels t → l ∈ Enhanced.relevantLabels labels tq) := by
  constructor
  · simp [Enhanced.relevantLabels, List.mem_filter]
  · intro hl
    rw [Enhanced.relevantLabels, List.mem_filter] at hl ⊢
    refine ⟨hl.1, ?_⟩
    have ht : l.timestamp ≤ t := by simpa using hl.2
    simpa using le_trans ht h

/-- Witness for claim C5 at a one label list and times 0 and 1. -/
theorem relevantLabels_query_monotone_witness :
    (0 : ℚ) ≤ 1 ∧
    ((Enhanced.lbl0 ∈ Enhanced.relevantLabels [Enhanced.lbl0] 0 ↔
        Enhanced.lbl0 ∈ [Enhanced.lbl0] ∧ Enhanced.lbl0.timestamp ≤ 0) ∧
      (Enhanced.lbl0 ∈ Enhanced.relevantLabels [Enhanced.lbl0] 0 →
        Enhanced.lbl0 ∈ Enhanced.relevantLabels [Enhanced.lbl0] 1)) :=
  ⟨by norm_num,
    relevantLabels_query_monotone [Enhanced.lbl0] 0 1 Enhanced.lbl0 (by norm_num)⟩

/-- Claim C9: an event sequence without a FullSnapshot makes
reconstructFromEvents return a null document together with the missing
snapshot error message, without throwing, and the reconstructor state —
the offscreen surface included — is left untouched. -/
theorem reconstructFromEvents_missing_snapshot (s : ReconstructorState)
    (events : List eventWithTime) (env : ReconstructEnv)
    (h : ∀ e ∈ events, e.type ≠ EventType.fullSnapshot) :
    reconstructFromEvents s events env =
      (s, { document := none, imageDataUrl := none
            error := some "No full snapshot found in events" }) := by
  have hf : events.find? (fun e => e.type == EventType.fullSnapshot) = none := by
    rw [List.find?_eq_none]
    intro e he
    simpa using h e he
  unfold reconstructFromEvents
  rw [hf]

/-- Witness for claim C9 on a single IncrementalSnapshot event. -/
theorem reconstructFromEvents_missing_snapshot_witness :
    (∀ e ∈ ([{ type := EventType.incrementalSnapshot, timestamp := 5, node := 0 }] :
        List eventWithTime), e.type ≠ EventType.fullSnapshot) ∧
    reconstructFromEvents initState
        [{ type := EventType.incrementalSnapshot, timestamp := 5, node := 0 }]
        envReconstructW =
      (initState, { document := none, imageDataUrl := none
                    error := some "No full snapshot found in events" }) :=
  ⟨by decide,
    reconstructFromEvents_missing_snapshot initState
      [{ type := EventType.incrementalSnapshot, timestamp := 5, node := 0 }]
      envReconstructW (by decide)⟩

/-- Claim C2 (code bug evidence): the single job guard never engages.
After a first submission has posted its upload and its job is still in
flight (the guard field isPolling is still false, because the source
never assigns it), a second submission is not skipped: it posts a second
upload, so two POST /upload calls are observed instead of one. -/
theorem analyzeImage_double_submit_two_uploads :
    (analyzeImageSubmit initState "img-a" envUpload).1.isPolling = false ∧
    (analyzeImageSubmit (analyzeImageSubmit initState "img-a" envUpload).1
        "img-b" envUpload).2 = SubmitResult.submitted "job-1" ∧
    (analyzeImageSubmit (analyzeImageSubmit initState "img-a" envUpload).1
        "img-b" envUpload).1.uploadCount = 2 :=
  ⟨rfl, rfl, rfl⟩

/-- Claim C3 (code bug evidence): running the pipeline on the §8 event
stream (one FullSnapshot at timestamp 0) with a successful analysis round
trip at wall clock time 1700000000000 produces a label whose timestamp is
1700000000000 — the Date.now() value at conversion time — while every
event timestamp is 0, so no label timestamp equals the timestamp of any
event that produced it. -/
theorem analyzeImage_timestamp_not_event_time :
    ((reconstructFromEvents (subscribeToSemanticLabels initState 0) eventsC3
          envC3).1.notificationLog.map
        (fun n => n.2.1.map (fun l => l.timestamp))) = [[], [1700000000000]] ∧
    eventsC3.map (fun e => e.timestamp) = [0] ∧
    (((1700000000000 : ℚ) != 0) = true) :=
  ⟨rfl, rfl, rfl⟩

/-- Claim C10: analyzeImage never rejects.  Whenever the run raises an
error — the upload fails or returns no job id, or polling fails (timeout
included) — the call resolves with the empty array and stores null in
analysisResults; only logging happens. -/
theorem analyzeImage_never_rejects (s : ReconstructorState) (dataUrl : String)
    (env : AnalyzeEnv) (hp : s.isPolling = false)
    (h : uploadFails env = true ∨ pollFails env = true) :
    (analyzeImage s dataUrl env).2 = [] ∧
    (analyzeImage s dataUrl env).1.analysisResults = none := by
  cases henv : env.uploadResponse with
  | ok jid =>
    cases jid with
    | none => simp [analyzeImage, analyzeImageSubmit, hp, henv]
    | some j =>
      have hpf : pollFails env = true := by
        rcases h with h | h
        · exfalso
          simp [uploadFails, henv] at h
        · exact h
      rcases hq : (pollResults env.pollResponses 120 10000).1 with e | r
      · simp [analyzeImage, analyzeImageSubmit, hp, henv, analyzeImageFinish, hq]
      · exfalso
        simp [pollFails, hq] at hpf
  | httpError st => simp [analyzeImage, analyzeImageSubmit, hp, henv]
  | netError m => simp [analyzeImage, analyzeImageSubmit, hp, henv]

/-- Witness for claim C10: from the fresh state, with a failing upload
(HTTP 500), analyzeImage resolves with [] and null results. -/
theorem analyzeImage_never_rejects_witness :
    initState.isPolling = false ∧
    (uploadFails
        { now := 0, uuids := fun _ => "u"
          uploadResponse := .httpError 500
          pollResponses := fun _ => .failure 404 } = true ∨
      pollFails
        { now := 0, uuids := fun _ => "u"
          uploadResponse := .httpError 500
          pollResponses := fun _ => .failure 404 } = true) ∧
    ((analyzeImage initState "img"
        { now := 0, uuids := fun _ => "u"
          uploadResponse := .httpError 500
          pollResponses := fun _ => .failure 404 }).2 = [] ∧
      (analyzeImage initState "img"
        { now := 0, uuids := fun _ => "u"
          uploadResponse := .httpError 500
          pollResponses := fun _ => .failure 404 }).1.analysisResults = none) :=
  ⟨rfl, Or.inl rfl,
    analyzeImage_never_rejects initState "img"
      { now := 0, uuids := fun _ => "u"
        uploadResponse := .httpError 500
        pollResponses := fun _ => .failure 404 } rfl (Or.inl rfl)⟩

/-- Claim C6 (counterexample): destroy does not make late results be
discarded.  With one subscriber registered, a job submitted, and destroy
called while the job is in flight, the arrival of the poll result still
converts the detections and notifies the subscriber: the notification log
grows after destroy by an entry carrying a nonempty label list. -/
theorem destroy_then_result_still_notifies :
    (analyzeImageFinish
        (destroy (analyzeImageSubmit (subscribeToSemanticLabels initState 0)
          "img" envC6).1) "img" envC6).1.notificationLog =
      [(0, [], "img"),
       (0, [{ id := "uuid-0", timestamp := 123, label := "Login"
              confidence := 9/10
              bbox := { x := 1/10, y := 1/10, width := 1/5, height := 1/10 } }],
        "img")] ∧
    (destroy (analyzeImageSubmit (subscribeToSemanticLabels initState 0)
        "img" envC6).1).notificationLog = [(0, [], "img")] := by
  constructor
  · have hpoll : (pollResults envC6.pollResponses 120 10000).1 =
        Except.ok [loginResult] := rfl
    simp only [analyzeImageFinish, hpoll]
    simp [notifySemanticLabelSubscribers, analyzeImageSubmit,
      subscribeToSemanticLabels, destroy, initState, envC6,
      convertToSemanticLabel, convertBBoxToBox, loginResult, List.enum,
      SemanticLabel.mk.injEq, BoundingBox.mk.injEq]
    norm_num
  · rfl

/-- Claim C6 (amended): destroy releases the offscreen container and
resets the mirror but does not tear down the label subscribers, and a
poll result arriving after destroy is still applied: the detections are
converted with the Date.now() timestamp and delivered to every subscriber
that was registered, appended to the notification log. -/
theorem destroy_keeps_subscribers_and_late_results_apply
    (s : ReconstructorState) (dataUrl : String) (env : AnalyzeEnv)
    (results : List AIAnalysisResult)
    (h : (pollResults env.pollResponses 120 10000).1 = Except.ok results) :
    (destroy s).semanticLabelSubscribers = s.semanticLabelSubscribers ∧
    (analyzeImageFinish (destroy s) dataUrl env).1.notificationLog =
      s.notificationLog ++ s.semanticLabelSubscribers.map
        (fun cb => (cb, results.enum.map
          (fun p => convertToSemanticLabel (env.uuids p.1) p.2 env.now),
          dataUrl)) := by
  constructor
  · rfl
  · simp only [analyzeImageFinish, h]
    rfl

/-- Witness for claim C6 (amended) with one subscriber and the envC6
round trip. -/
theorem destroy_keeps_subscribers_witness :
    (pollResults envC6.pollResponses 120 10000).1 = Except.ok [loginResult] ∧
    ((destroy (subscribeToSemanticLabels initState 0)).semanticLabelSubscribers =
        (subscribeToSemanticLabels initState 0).semanticLabelSubscribers ∧
      (analyzeImageFinish (destroy (subscribeToSemanticLabels initState 0))
          "img" envC6).1.notificationLog =
        (subscribeToSemanticLabels initState 0).notificationLog ++
          (subscribeToSemanticLabels initState 0).semanticLabelSubscribers.map
            (fun cb => (cb, ([loginResult].enum).map
              (fun p => convertToSemanticLabel (envC6.uuids p.1) p.2 envC6.now),
              "img"))) :=
  ⟨rfl, destroy_keeps_subscribers_and_late_results_apply
    (subscribeToSemanticLabels initState 0) "img" envC6 [loginResult] rfl⟩

/-- Claim C8 (counterexample): a detection whose box has a non finite
component is not dropped.  The entry with box [Infinity, 0, 0, 0] passes
the validation of the plugin — which checks only the array shape, the
length 4 and NaN, never finiteness — and is preserved in the output with
an infinite x coordinate. -/
theorem computeBoundingBoxes_infinite_component_kept :
    OmniPlugin.computeBoundingBoxes
        [("0", OmniPlugin.CoordVal.arr
          [OmniPlugin.JSNum.inf, OmniPlugin.JSNum.num 0,
           OmniPlugin.JSNum.num 0, OmniPlugin.JSNum.num 0])]
        ["Text Box ID 0: Login"] 512 384 =
      [{ id := "0"
         coords := { x := OmniPlugin.JSNum.inf, y := OmniPlugin.JSNum.num 0
                     width := OmniPlugin.JSNum.num 0
                     height := OmniPlugin.JSNum.num 0 }
         text := "Login" }] ∧
    OmniPlugin.JSNum.isFinite OmniPlugin.JSNum.inf = false := by
  constructor
  · have htext : OmniPlugin.matchedText ["Text Box ID 0: Login"] "0" = "Login" := by
      decide
    simp [OmniPlugin.computeBoundingBoxes, OmniPlugin.entryToParsedBox, htext,
      OmniPlugin.JSNum.mul, OmniPlugin.JSNum.isNaN,
      OmniPlugin.ParsedBox.mk.injEq, OmniPlugin.Coordinates.mk.injEq,
      OmniPlugin.JSNum.num.injEq]
  · rfl

/-- The text field produced for one entry: the matched text when the
coordinate value passes the validation the code performs, and the empty
string otherwise. -/
theorem entryToParsedBox_text (lines : List String) (cw ch : ℚ)
    (e : String × OmniPlugin.CoordVal) :
    (OmniPlugin.entryToParsedBox lines cw ch e).text =
      if OmniPlugin.codeValidBox e.2 then OmniPlugin.matchedText lines e.1
      else "" := by
  obtain ⟨id, v⟩ := e
  cases v with
  | notArr => simp [OmniPlugin.entryToParsedBox, OmniPlugin.codeValidBox]
  | arr cs =>
    by_cases h4 : cs.length = 4 <;>
      by_cases hn : cs.any OmniPlugin.JSNum.isNaN <;>
        simp [OmniPlugin.entryToParsedBox, OmniPlugin.codeValidBox, h4, hn]

/-- Claim C8 (amended): a box is in the mapper output exactly when its
entry passes the validation the code performs — the value is an array of
exactly four components none of which is NaN (finiteness is not checked)
— and its matched Text Box ID line yields nonempty text; each failing
entry is dropped individually, never aborting the batch, and every entry
satisfying both conditions is preserved as its converted box. -/
theorem computeBoundingBoxes_membership
    (entries : List (String × OmniPlugin.CoordVal)) (lines : List String)
    (cw ch : ℚ) (b : OmniPlugin.ParsedBox) :
    b ∈ OmniPlugin.computeBoundingBoxes entries lines cw ch ↔
      ∃ e ∈ entries, OmniPlugin.codeValidBox e.2 = true ∧
        OmniPlugin.matchedText lines e.1 ≠ "" ∧
        b = OmniPlugin.entryToParsedBox lines cw ch e := by
  rw [OmniPlugin.computeBoundingBoxes]
  rw [List.mem_filter]
  constructor
  · rintro ⟨hb, htext⟩
    rw [List.mem_map] at hb
    obtain ⟨e, he, rfl⟩ := hb
    rw [bne_iff_ne, ne_eq, entryToParsedBox_text] at htext
    by_cases hcv : OmniPlugin.codeValidBox e.2 = true
    · rw [if_pos hcv] at htext
      exact ⟨e, he, hcv, htext, rfl⟩
    · rw [if_neg hcv] at htext
      exact absurd rfl htext
  · rintro ⟨e, he, hcv, hmt, rfl⟩
    refine ⟨List.mem_map.mpr ⟨e, he, rfl⟩, ?_⟩
    rw [bne_iff_ne, ne_eq, entryToParsedBox_text, if_pos hcv]
    exact hmt
